import Mathlib

/-!
Shallow embedding of `main.py` from the yt-dlp GUI front-end, covering the
components the verification below is about:

* `_run_yt_dlp` (main.py lines 97-124): the job runner — try block that spawns
  the child process and streams its merged stdout/stderr lines to the line
  queue and the activity log, the except clause that converts an exception to
  a single `[ERROR] `-marked queue line, and the finally clause that resets
  the shared current-process reference, fires the optional post-hook and the
  desktop notification.
* the preferences load at startup (main.py lines 61-65) and the preset menu
  values derived from it (main.py lines 304-308).
* `pump_queue` (main.py lines 132-140): the UI pump draining the line queue
  into the log view.
* `start_download` (main.py lines 180-227) with its per-URL argument
  construction (lines 194-225), `get_expected_filename` / `os.path.exists` /
  `ask_overwrite` appearing as oracle parameters since they perform I/O.

Machine-level effects (threads, file descriptors, Tk) are represented by
explicit inputs and outputs: the child process's observable behaviour is an
input (`ProcBehavior`), and the runner's effects (queue puts, log appends,
the shared handle, notification content) are fields of its result.
-/

namespace YtdlpMadeEasy

/-- Gettext stub: `_ = gettext.gettext` (main.py line 22) is the identity
translation, so translated literals are the literals themselves. -/
def tr (s : String) : String := s

/-- Observable behaviour of one child-process interaction as seen by the try
block of the runner (main.py lines 99-107).

* `success lines`: the log file opens, the process spawns, writes exactly
  `lines` (each line keeps its trailing newline, as Python's file-object line
  iteration yields them) and exits; `wait()` returns.
* `spawnFail msg`: opening the log file or `subprocess.Popen` raises an
  exception rendering as `msg` before any line is read and before the shared
  process reference is assigned.
* `readFail linesRead msg`: the spawn succeeds, `linesRead` lines are read
  (each was put on the queue and written to the log), then reading or
  `wait()` raises an exception rendering as `msg`. -/
inductive ProcBehavior where
  | success (lines : List String)
  | spawnFail (msg : String)
  | readFail (linesRead : List String) (msg : String)
deriving Repr, DecidableEq

/-- Mutable state the runner touches while its try/except body executes: the
lines this call has put on the shared line queue, the text this call has
appended to the activity log, and the shared `current_process` slot (a held
handle is modelled as `some ()`). -/
structure RunnerState where
  queuePuts : List String
  logAppend : String
  currentProcess : Option Unit
deriving Repr, DecidableEq

/-- Try block of `_run_yt_dlp` (main.py lines 99-107): open the log, assign
`current_process`, then for each line `q.put(line); lg.write(line)`, then
wait. Returns the state reached together with the rendered exception, if one
was raised. -/
def tryBody (beh : ProcBehavior) (st : RunnerState) : RunnerState × Option String :=
  match beh with
  | .success lines =>
      ({ queuePuts := st.queuePuts ++ lines,
         logAppend := st.logAppend ++ String.join lines,
         currentProcess := some () }, none)
  | .spawnFail msg => (st, some msg)
  | .readFail linesRead msg =>
      ({ queuePuts := st.queuePuts ++ linesRead,
         logAppend := st.logAppend ++ String.join linesRead,
         currentProcess := some () }, some msg)

/-- The single error line the except clause builds from an exception `e`:
Python's `f"[ERROR] {e}\n"` (main.py line 109). -/
def errLine (msg : String) : String := "[ERROR] " ++ msg ++ "\n"

/-- Except clause of `_run_yt_dlp` (main.py lines 108-109): put exactly one
error-marked line on the queue. Nothing is written to the log here. -/
def exceptClause (msg : String) (st : RunnerState) : RunnerState :=
  { st with queuePuts := st.queuePuts ++ [errLine msg] }

/-- Everything observable about one `_run_yt_dlp` call once it returns. -/
structure RunnerOutcome where
  /-- Lines this call put on the shared line queue, in order. -/
  queuePuts : List String
  /-- Text this call appended to the activity log file. -/
  logAppend : String
  /-- Value of the shared `current_process` slot when the call returns. -/
  currentProcessAfter : Option Unit
  /-- Whether the post-hook shell command was launched (attempted). -/
  hookAttempted : Bool
  /-- Whether the post-hook launch succeeded (its failure is swallowed). -/
  hookDelivered : Bool
  /-- Whether the desktop notification was attempted. -/
  notifAttempted : Bool
  /-- Title passed to the notification call. -/
  notifTitle : String
  /-- Message passed to the notification call. -/
  notifMessage : String
  /-- Whether the notification was actually delivered (failure swallowed). -/
  notifDelivered : Bool
  /-- Whether the call propagates an exception to its caller. -/
  raised : Bool
deriving Repr, DecidableEq

/-- Finally clause of `_run_yt_dlp` (main.py lines 110-124): reset
`current_process` to `None`, launch the post-hook if present (its spawn
failure swallowed), then attempt the desktop notification with title
`"Download Complete"` and message `args[1] if len(args) > 1 else "Finished"`
(delivery failure swallowed). `hookFails` / `notifFails` say whether those
two external deliveries raise; both are caught, so nothing else depends on
them. -/
def finallyClause (args : List String) (post_hook : Option String)
    (hookFails notifFails : Bool) (st : RunnerState) : RunnerOutcome :=
  { queuePuts := st.queuePuts
    logAppend := st.logAppend
    currentProcessAfter := none
    hookAttempted := post_hook.isSome
    hookDelivered := post_hook.isSome && !hookFails
    notifAttempted := true
    notifTitle := tr "Download Complete"
    notifMessage := args.getD 1 (tr "Finished")
    notifDelivered := !notifFails
    raised := false }

/-- The runner `_run_yt_dlp` (main.py lines 97-124), as the composition of
its try block, except clause and finally clause. `cp0` is the value the
shared `current_process` slot holds when the call starts (a spawn failure
leaves it untouched until the finally clause runs). -/
def run_yt_dlp (args : List String) (post_hook : Option String)
    (beh : ProcBehavior) (hookFails notifFails : Bool)
    (cp0 : Option Unit) : RunnerOutcome :=
  let st0 : RunnerState := { queuePuts := [], logAppend := "", currentProcess := cp0 }
  let r := tryBody beh st0
  let st1 :=
    match r.2 with
    | some msg => exceptClause msg r.1
    | none => r.1
  finallyClause args post_hook hookFails notifFails st1

/-- Boolean test for a line carrying the runner's error marker. -/
def errorPrefixed (s : String) : Bool := "[ERROR] ".data.isPrefixOf s.data

/-- Preferences are a JSON object; the program reads only the `"presets"`
key, whose value is itself an object (preset name, then preset fields). The
claims below concern only the empty-default fallback, so leaf values are
modelled as strings. -/
abbrev Prefs := List (String × List (String × String))

/-- Outcome of attempting to open and parse the preferences file: either a
parsed dictionary, or any exception (missing file, malformed JSON, read
error) rendering as a message. -/
inductive PrefsSource where
  | ok (p : Prefs)
  | fail (msg : String)
deriving Repr, DecidableEq

/-- Startup preferences load (main.py lines 61-65): `json.load` of the prefs
file, with any exception caught and replaced by the empty dictionary. -/
def loadPrefs : PrefsSource → Prefs
  | .ok p => p
  | .fail _ => []

/-- Values shown in the preset menu (main.py lines 304-308):
`list(prefs.get("presets", {}).keys()) or ["Default"]`. -/
def presetMenuValues (prefs : Prefs) : List String :=
  let keys := ((prefs.lookup "presets").getD []).map Prod.fst
  if keys = [] then [tr "Default"] else keys

/-- One primitive mutation `pump_queue` can apply to the log view widget. -/
inductive ViewEvent where
  /-- `output_box.configure(state=...)`. -/
  | setState (s : String)
  /-- `output_box.insert("end", line)`. -/
  | insert (line : String)
  /-- `output_box.see("end")`. -/
  | scrollEnd
deriving Repr, DecidableEq

/-- The drain loop of `pump_queue` (main.py lines 133-138): while the queue
is non-empty, pop a line and apply the four widget calls for it. Returns the
emitted view mutations in order. -/
def pumpDrain : List String → List ViewEvent
  | [] => []
  | line :: rest =>
      [ViewEvent.setState "normal", ViewEvent.insert line,
       ViewEvent.scrollEnd, ViewEvent.setState "disabled"] ++ pumpDrain rest

/-- Observable result of one `pump_queue` tick. -/
structure PumpResult where
  /-- View mutations performed, in order. -/
  events : List ViewEvent
  /-- Whether the pump rescheduled itself via `app.after(100, pump_queue)`. -/
  rescheduled : Bool
deriving Repr, DecidableEq

/-- One tick of `pump_queue` (main.py lines 132-140), given the queue
contents at the moment the tick runs: drain everything, then reschedule. -/
def pump_queue (queued : List String) : PumpResult :=
  { events := pumpDrain queued, rescheduled := true }

/-- Abstract state of the log view widget. -/
structure ViewState where
  /-- Full text content of the widget. -/
  content : String
  /-- Tk widget state (`"normal"` or `"disabled"`). -/
  widgetState : String
  /-- Whether the view is scrolled to the end. -/
  atEnd : Bool
deriving Repr, DecidableEq

/-- Effect of a single view mutation on the widget state. -/
def applyEvent (v : ViewState) : ViewEvent → ViewState
  | .setState s => { v with widgetState := s }
  | .insert line => { v with content := v.content ++ line }
  | .scrollEnd => { v with atEnd := true }

/-- Effect of a sequence of view mutations, applied in order. -/
def applyEvents (v : ViewState) (es : List ViewEvent) : ViewState :=
  es.foldl applyEvent v

/-- Form state read by `start_download`: the widget values at the moment the
Download button is pressed (main.py lines 181-225 read `url_text`,
`folder_entry`, `audio_var`, `quality_var`, `subs_var`, `sponsor_var`,
`rate_entry`, `proxy_entry`, `rename_entry`). -/
structure FormState where
  urlText : String
  folderEntry : String
  audioVar : Bool
  qualityVar : String
  subsVar : String
  sponsorVar : Bool
  rateEntry : String
  proxyEntry : String
  renameEntry : String
deriving Repr, DecidableEq

/-- Python's `qstr.rstrip("p")` (main.py line 202): drop every trailing
`'p'` character. -/
def rstripP (s : String) : String :=
  String.mk ((s.data.reverse.dropWhile (· = 'p')).reverse)

/-- Python's `str.strip()`: drop leading and trailing whitespace. -/
def pyStrip (s : String) : String :=
  String.mk (((s.data.dropWhile Char.isWhitespace).reverse.dropWhile
    Char.isWhitespace).reverse)

/-- Split a character list at every `'\n'`. -/
def splitNlChars : List Char → List (List Char)
  | [] => [[]]
  | '\n' :: rest => [] :: splitNlChars rest
  | c :: rest =>
    match splitNlChars rest with
    | [] => [[c]]
    | line :: lines => (c :: line) :: lines

/-- Python's `str.splitlines()` as `start_download` uses it (on stripped
text, so there is no trailing line terminator): the text's `'\n'`-separated
lines. -/
def splitlinesStr (s : String) : List String :=
  (splitNlChars s.data).map String.mk

/-- Destination folder resolution (main.py line 182):
`folder_entry.get().strip() or os.getcwd()` — the stripped entry when it is
non-empty, the current working directory otherwise. -/
def resolveFolder (fs : FormState) (cwd : String) : String :=
  if pyStrip fs.folderEntry = "" then cwd else pyStrip fs.folderEntry

/-- Audio/video format block (main.py lines 197-205): audio-only adds the
extraction flags; otherwise a quality other than `"Best"` adds a
height-bounded format selector, and `"Best"` adds the default selector. -/
def formatArgs (fs : FormState) : List String :=
  if fs.audioVar then ["-x", "--audio-format", "mp3"]
  else if fs.qualityVar ≠ "Best" then
    ["-f", "bestvideo[height<=" ++ rstripP fs.qualityVar ++ "]+bestaudio/best"]
  else ["-f", "bv*+ba/best"]

/-- Subtitle block (main.py lines 208-210): added when the subtitle language
is non-empty. -/
def subsArgs (fs : FormState) : List String :=
  if fs.subsVar ≠ "" then ["--write-subs", "--sub-lang=" ++ fs.subsVar] else []

/-- SponsorBlock block (main.py lines 211-212). -/
def sponsorArgs (fs : FormState) : List String :=
  if fs.sponsorVar then ["--sponsorblock-remove", "all"] else []

/-- Rate-limit block (main.py lines 215, 217-218): added when the stripped
rate entry is non-empty. -/
def rateArgs (fs : FormState) : List String :=
  if pyStrip fs.rateEntry ≠ "" then ["--limit-rate", pyStrip fs.rateEntry] else []

/-- Proxy block (main.py lines 216, 219-220). -/
def proxyArgs (fs : FormState) : List String :=
  if pyStrip fs.proxyEntry ≠ "" then ["--proxy", pyStrip fs.proxyEntry] else []

/-- Output-template block (main.py lines 223-225). -/
def tplArgs (fs : FormState) : List String :=
  if pyStrip fs.renameEntry ≠ "" then ["-o", pyStrip fs.renameEntry] else []

/-- Argument list built for one URL (main.py lines 194-225): the base
`[yt_dlp_exe, url, "-P", folder]` followed by the successive `args +=`
blocks in source order. -/
def buildArgs (exe folder : String) (fs : FormState) (url : String) : List String :=
  [exe, url, "-P", folder] ++ formatArgs fs ++ subsArgs fs ++ sponsorArgs fs
    ++ rateArgs fs ++ proxyArgs fs ++ tplArgs fs

/-- Observable result of one `start_download` call: jobs handed to
`threaded_yt_dlp` (one argument list each, in order) and the `Skipped` lines
put on the line queue for declined overwrites. -/
structure StartResult where
  jobs : List (List String)
  queuePuts : List String
deriving Repr, DecidableEq

/-- Per-URL loop of `start_download` (main.py lines 184-227). `build` is the
pure argument construction; `probe url` is `get_expected_filename(url,
folder)` (`none` both when the dry-run probe fails and when it is skipped);
`fileExists` is `os.path.exists`; `askOv` is the overwrite dialog. A URL is
skipped when the probed path is truthy (non-`None`, non-empty), the file
exists, and the user declines to replace it. -/
def startLoop (build : String → List String) (probe : String → Option String)
    (fileExists askOv : String → Bool) : List String → StartResult
  | [] => { jobs := [], queuePuts := [] }
  | url :: rest =>
    let r := startLoop build probe fileExists askOv rest
    if url = "" then r
    else
      let blocked :=
        match probe url with
        | some expected => expected != "" && fileExists expected && !(askOv expected)
        | none => false
      if blocked then
        { jobs := r.jobs, queuePuts := ("Skipped " ++ url ++ "\n") :: r.queuePuts }
      else
        { jobs := build url :: r.jobs, queuePuts := r.queuePuts }

/-- The `start_download` callback (main.py lines 180-227): strip the URL box
text, split it into lines, resolve the folder, and run the per-URL loop.
`probe url folder` stands for `get_expected_filename(url, folder)`; the
stdlib `str.splitlines` is modelled as splitting on `'\n'`. -/
def start_download (fs : FormState) (exe cwd : String)
    (probe : String → String → Option String)
    (fileExists askOv : String → Bool) : StartResult :=
  let urls := splitlinesStr (pyStrip fs.urlText)
  let folder := resolveFolder fs cwd
  startLoop (fun url => buildArgs exe folder fs url)
    (fun url => probe url folder) fileExists askOv urls

/-- Form state whose URL box holds two URLs separated by one blank line and
whose other fields are the widget defaults (main.py lines 267-304: audio
off, empty subtitle language, sponsor off, quality `"Best"`, empty rate,
proxy and template entries). -/
def fsTwoUrls : FormState :=
  { urlText := "http://a\n\nhttp://b", folderEntry := "", audioVar := false,
    qualityVar := "Best", subsVar := "", sponsorVar := false,
    rateEntry := "", proxyEntry := "", renameEntry := "" }

/-- Audio-only form state whose single URL line is the literal `"-f"`. -/
def fsDashF : FormState :=
  { urlText := "-f", folderEntry := ".", audioVar := true,
    qualityVar := "Best", subsVar := "", sponsorVar := false,
    rateEntry := "", proxyEntry := "", renameEntry := "" }

/-- Audio-only form state with a single ordinary URL, used to instantiate
the audio-flag theorem. -/
def fsAudio : FormState :=
  { urlText := "http://a", folderEntry := "d", audioVar := true,
    qualityVar := "Best", subsVar := "en", sponsorVar := true,
    rateEntry := "500K", proxyEntry := "", renameEntry := "" }

/-- Form state with one URL, used to show the job list depends on the
filesystem oracles and not on the form state alone. -/
def fsOneUrl : FormState :=
  { urlText := "http://a", folderEntry := "d", audioVar := false,
    qualityVar := "Best", subsVar := "", sponsorVar := false,
    rateEntry := "", proxyEntry := "", renameEntry := "" }

/-- Filename probe that always reports a would-be output file inside the
destination folder. -/
def probeConst (url folder : String) : Option String :=
  some (folder ++ "/" ++ url ++ ".mp4")

/-- The single job `start_download` builds from `fsOneUrl` when no file
exists. -/
def jobOneUrl : List String := buildArgs "y" (resolveFolder fsOneUrl ".") fsOneUrl "http://a"

theorem errorPrefixed_errLine (msg : String) : errorPrefixed (errLine msg) = true := by
  have hd : (errLine msg).data = "[ERROR] ".data ++ (msg.data ++ "\n".data) := by
    simp [errLine, String.data_append, List.append_assoc]
  rw [errorPrefixed, hd, List.isPrefixOf_iff_prefix]
  exact List.prefix_append _ _

/-- C1: for every job whose child process writes `lines` to its merged
stdout/stderr and then exits, the runner puts exactly those lines on the
line queue in write order, appends exactly their concatenation to the
activity log, and raises nothing. -/
theorem runner_success_lines_queue_and_log (args : List String)
    (post : Option String) (lines : List String) (hookFails notifFails : Bool)
    (cp0 : Option Unit) :
    (run_yt_dlp args post (.success lines) hookFails notifFails cp0).queuePuts = lines ∧
    (run_yt_dlp args post (.success lines) hookFails notifFails cp0).logAppend
      = String.join lines ∧
    (run_yt_dlp args post (.success lines) hookFails notifFails cp0).raised = false :=
  ⟨rfl, rfl, rfl⟩

/-- C2: when spawning or reading the child process raises an exception, the
runner converts it to a single queue line carrying the `[ERROR] ` marker —
appended after whatever lines the child had already written — propagates
nothing, and leaves the shared current-process reference at `none`. On a
spawn failure the queue receives exactly one line, and exactly one
error-marked line. -/
theorem runner_exception_single_error_line (args : List String)
    (post : Option String) (hookFails notifFails : Bool) (cp0 : Option Unit)
    (msg : String) (linesRead : List String) :
    (run_yt_dlp args post (.spawnFail msg) hookFails notifFails cp0).queuePuts
      = [errLine msg] ∧
    (run_yt_dlp args post (.spawnFail msg) hookFails notifFails
        cp0).queuePuts.countP errorPrefixed = 1 ∧
    (run_yt_dlp args post (.readFail linesRead msg) hookFails notifFails cp0).queuePuts
      = linesRead ++ [errLine msg] ∧
    errorPrefixed (errLine msg) = true ∧
    (run_yt_dlp args post (.spawnFail msg) hookFails notifFails cp0).raised = false ∧
    (run_yt_dlp args post (.readFail linesRead msg) hookFails notifFails cp0).raised
      = false ∧
    (run_yt_dlp args post (.spawnFail msg) hookFails notifFails cp0).currentProcessAfter
      = none ∧
    (run_yt_dlp args post (.readFail linesRead msg) hookFails notifFails
        cp0).currentProcessAfter = none := by
  refine ⟨rfl, ?_, rfl, errorPrefixed_errLine msg, rfl, rfl, rfl, rfl⟩
  show ([errLine msg].countP errorPrefixed) = 1
  simp [List.countP_cons, List.countP_nil, errorPrefixed_errLine]

/-- C6: when the argument list has at least two elements, the completion
notification carries the fixed title `"Download Complete"` and names the
argument at index 1 (the URL, for lists built by `start_download`); a
notification-delivery failure is swallowed: it changes neither the queue,
the log, the shared process slot, nor the absence of a raised exception. -/
theorem runner_notification_primary_arg (a url : String) (rest : List String)
    (post : Option String) (beh : ProcBehavior)
    (hookFails notifFails notifFails' : Bool) (cp0 : Option Unit) :
    (run_yt_dlp (a :: url :: rest) post beh hookFails notifFails cp0).notifTitle
      = "Download Complete" ∧
    (run_yt_dlp (a :: url :: rest) post beh hookFails notifFails cp0).notifMessage
      = url ∧
    (run_yt_dlp (a :: url :: rest) post beh hookFails notifFails cp0).notifAttempted
      = true ∧
    (run_yt_dlp (a :: url :: rest) post beh hookFails notifFails cp0).raised = false ∧
    (run_yt_dlp (a :: url :: rest) post beh hookFails notifFails cp0).queuePuts
      = (run_yt_dlp (a :: url :: rest) post beh hookFails notifFails' cp0).queuePuts ∧
    (run_yt_dlp (a :: url :: rest) post beh hookFails notifFails cp0).logAppend
      = (run_yt_dlp (a :: url :: rest) post beh hookFails notifFails' cp0).logAppend ∧
    (run_yt_dlp (a :: url :: rest) post beh hookFails notifFails
        cp0).currentProcessAfter
      = (run_yt_dlp (a :: url :: rest) post beh hookFails notifFails'
          cp0).currentProcessAfter :=
  ⟨rfl, rfl, rfl, rfl, rfl, rfl, rfl⟩

/-- C9: the finally clause runs on every path, including a spawn failure, so
the desktop notification titled `"Download Complete"` is attempted
unconditionally — notification emission is not restricted to successful
completions. -/
theorem runner_notification_on_all_paths (args : List String)
    (post : Option String) (beh : ProcBehavior) (hookFails notifFails : Bool)
    (cp0 : Option Unit) :
    (run_yt_dlp args post beh hookFails notifFails cp0).notifAttempted = true ∧
    (run_yt_dlp args post beh hookFails notifFails cp0).notifTitle
      = "Download Complete" :=
  ⟨rfl, rfl⟩

/-- C10: whatever the child-process behaviour and whatever value the shared
slot held when the call started, the runner's finally clause resets the
shared current-process reference to `none` before the call returns. -/
theorem runner_current_process_reset_all_paths (args : List String)
    (post : Option String) (beh : ProcBehavior) (hookFails notifFails : Bool)
    (cp0 : Option Unit) :
    (run_yt_dlp args post beh hookFails notifFails cp0).currentProcessAfter = none :=
  rfl

/-- C7: a failed preferences load (missing file, malformed JSON, read error)
yields the empty dictionary, a successful one yields the parsed dictionary,
and the program proceeds — the preset menu built from the empty dictionary
falls back to `["Default"]`. -/
theorem prefs_failure_empty_default (msg : String) (p : Prefs) :
    loadPrefs (.fail msg) = [] ∧ loadPrefs (.ok p) = p ∧
    presetMenuValues (loadPrefs (.fail msg)) = ["Default"] :=
  ⟨rfl, rfl, rfl⟩

/-- C8: a `pump_queue` tick that finds the line queue empty emits no view
mutation — applied to any view state it leaves the view unchanged — and only
reschedules itself. -/
theorem pump_queue_empty_no_mutation (v : ViewState) :
    (pump_queue []).events = [] ∧
    applyEvents v (pump_queue []).events = v ∧
    (pump_queue []).rescheduled = true :=
  ⟨rfl, rfl, rfl⟩

theorem startLoop_no_file_jobs (build : String → List String)
    (probe : String → Option String) (askOv : String → Bool) :
    ∀ urls : List String,
      (startLoop build probe (fun _ => false) askOv urls).jobs
        = (urls.filter (fun u => u != "")).map build
  | [] => rfl
  | url :: rest => by
    have ih := startLoop_no_file_jobs build probe askOv rest
    by_cases hu : url = ""
    · simp [startLoop, hu, ih]
    · cases hpu : probe url <;> simp [startLoop, hu, hpu, ih]

/-- C4: when the stripped URL text splits into two non-empty URL lines with
one blank line between them and no probed file exists, `start_download`
builds exactly two jobs — one argument list per non-empty URL, in order —
and none for the blank line. -/
theorem start_download_two_urls_one_blank (fs : FormState) (exe cwd : String)
    (probe : String → String → Option String) (askOv : String → Bool)
    (u1 u2 : String)
    (hsplit : splitlinesStr (pyStrip fs.urlText) = [u1, "", u2])
    (h1 : ¬(u1 = "")) (h2 : ¬(u2 = "")) :
    (start_download fs exe cwd probe (fun _ => false) askOv).jobs
      = [buildArgs exe (resolveFolder fs cwd) fs u1,
         buildArgs exe (resolveFolder fs cwd) fs u2] ∧
    (start_download fs exe cwd probe (fun _ => false) askOv).jobs.length = 2 := by
  have hjobs : (start_download fs exe cwd probe (fun _ => false) askOv).jobs
      = [buildArgs exe (resolveFolder fs cwd) fs u1,
         buildArgs exe (resolveFolder fs cwd) fs u2] := by
    have b1 : (u1 != "") = true := by simp [h1]
    have b2 : (u2 != "") = true := by simp [h2]
    simp only [start_download]
    rw [startLoop_no_file_jobs, hsplit]
    simp [List.filter, b1, b2]
  exact ⟨hjobs, by rw [hjobs]; rfl⟩

/-- C4 witness: the theorem applied to the default form state whose URL box
holds `"http://a\n\nhttp://b"`. -/
theorem start_download_two_urls_one_blank_witness :
    (start_download fsTwoUrls "yt-dlp.exe" "." (fun _ _ => none) (fun _ => false)
        (fun _ => true)).jobs
      = [buildArgs "yt-dlp.exe" (resolveFolder fsTwoUrls ".") fsTwoUrls "http://a",
         buildArgs "yt-dlp.exe" (resolveFolder fsTwoUrls ".") fsTwoUrls "http://b"] ∧
    (start_download fsTwoUrls "yt-dlp.exe" "." (fun _ _ => none) (fun _ => false)
        (fun _ => true)).jobs.length = 2 :=
  start_download_two_urls_one_blank fsTwoUrls "yt-dlp.exe" "." (fun _ _ => none)
    (fun _ => true) "http://a" "http://b" (by decide) (by decide) (by decide)

/-- C5 counterexample: the same form state run against two different
filesystem answers (`os.path.exists` false vs. true, overwrite declined)
produces different outputs, so `start_download`'s output is not a function
of the form state alone — the filename probe, the filesystem and the
overwrite dialog also decide which jobs are built. -/
theorem start_download_not_pure_in_form_state :
    start_download fsOneUrl "y" "." probeConst (fun _ => false) (fun _ => false)
      ≠ start_download fsOneUrl "y" "." probeConst (fun _ => true) (fun _ => false) := by
  decide

theorem startLoop_jobs_from_build (build : String → List String)
    (probe : String → Option String) (fileExists askOv : String → Bool) :
    ∀ (urls : List String) (job : List String),
      job ∈ (startLoop build probe fileExists askOv urls).jobs →
      ∃ url, url ∈ urls ∧ ¬(url = "") ∧ job = build url
  | [], job, h => absurd h (by simp [startLoop])
  | url :: rest, job, h => by
    simp only [startLoop] at h
    by_cases hu : url = ""
    · rw [if_pos hu] at h
      obtain ⟨u, hm, hne, he⟩ :=
        startLoop_jobs_from_build build probe fileExists askOv rest job h
      exact ⟨u, List.mem_cons_of_mem _ hm, hne, he⟩
    · rw [if_neg hu] at h
      split at h
      · obtain ⟨u, hm, hne, he⟩ :=
          startLoop_jobs_from_build build probe fileExists askOv rest job h
        exact ⟨u, List.mem_cons_of_mem _ hm, hne, he⟩
      · rcases List.mem_cons.mp h with he | hmem
        · exact ⟨url, List.mem_cons_self url rest, hu, he⟩
        · obtain ⟨u, hm, hne, he⟩ :=
            startLoop_jobs_from_build build probe fileExists askOv rest job hmem
          exact ⟨u, List.mem_cons_of_mem _ hm, hne, he⟩

/-- C5 (amended): every argument list `start_download` builds is determined
by the form state alone — it equals `buildArgs` of the executable path, the
resolved folder, the form state and one non-empty URL line of the input
text; which of those jobs get built, however, additionally depends on the
filename probe, the filesystem and the overwrite dialog (see the
counterexample). -/
theorem built_jobs_determined_by_form_state (fs : FormState) (exe cwd : String)
    (probe : String → String → Option String) (fileExists askOv : String → Bool)
    (job : List String)
    (hjob : job ∈ (start_download fs exe cwd probe fileExists askOv).jobs) :
    ∃ url, url ∈ splitlinesStr (pyStrip fs.urlText) ∧ ¬(url = "") ∧
      job = buildArgs exe (resolveFolder fs cwd) fs url := by
  simp only [start_download] at hjob
  exact startLoop_jobs_from_build _ _ _ _ _ job hjob

/-- C5 witness: the theorem applied to a one-URL form state and the job it
builds. -/
theorem built_jobs_determined_by_form_state_witness :
    ∃ url, url ∈ splitlinesStr (pyStrip fsOneUrl.urlText) ∧ ¬(url = "") ∧
      jobOneUrl = buildArgs "y" (resolveFolder fsOneUrl ".") fsOneUrl url :=
  built_jobs_determined_by_form_state fsOneUrl "y" "." probeConst (fun _ => false)
    (fun _ => false) jobOneUrl (by decide)

theorem sublang_ne_dash_f (s : String) : ¬("--sub-lang=" ++ s = "-f") := by
  intro h
  have hl : ("--sub-lang=" ++ s).length = ("-f" : String).length := by rw [h]
  rw [String.length_append] at hl
  have h11 : ("--sub-lang=" : String).length = 11 := rfl
  have h2 : ("-f" : String).length = 2 := rfl
  rw [h11, h2] at hl
  omega

/-- C3 counterexample: an audio-only form state whose single URL line is the
literal `"-f"` makes `start_download` build an argument list that does
contain `"-f"` (in the position yt-dlp parses as an option), so the claim's
unrestricted "contains no `-f`" fails. -/
theorem audio_only_dash_f_counterexample :
    fsDashF.audioVar = true ∧
    (start_download fsDashF "yt-dlp.exe" "." (fun _ _ => none) (fun _ => false)
        (fun _ => true)).jobs
      = [["yt-dlp.exe", "-f", "-P", ".", "-x", "--audio-format", "mp3"]] ∧
    "-f" ∈ ["yt-dlp.exe", "-f", "-P", ".", "-x", "--audio-format", "mp3"] := by
  decide

/-- C3 (amended): with the audio-only flag set, every built argument list
contains the audio-extraction flags `-x`, `--audio-format`, `mp3`; and it
contains no `"-f"` provided no user-supplied field passed through verbatim —
executable path, URL, folder, rate limit, proxy, template — is itself the
literal string `"-f"` (the builder itself never adds one in the audio
branch). -/
theorem audio_only_flags_amended (exe folder : String) (fs : FormState)
    (url : String) (haudio : fs.audioVar = true) (hexe : ¬(exe = "-f"))
    (hurl : ¬(url = "-f")) (hfolder : ¬(folder = "-f"))
    (hrate : ¬(pyStrip fs.rateEntry = "-f"))
    (hproxy : ¬(pyStrip fs.proxyEntry = "-f"))
    (htpl : ¬(pyStrip fs.renameEntry = "-f")) :
    ("-x" ∈ buildArgs exe folder fs url ∧
      "--audio-format" ∈ buildArgs exe folder fs url ∧
      "mp3" ∈ buildArgs exe folder fs url) ∧
    "-f" ∉ buildArgs exe folder fs url := by
  have hsubs : "-f" ∉ subsArgs fs := by
    rw [subsArgs]
    by_cases hc : fs.subsVar ≠ ""
    · rw [if_pos hc]
      simp [Ne.symm (sublang_ne_dash_f fs.subsVar)]
    · rw [if_neg hc]
      simp
  have hsponsor : "-f" ∉ sponsorArgs fs := by
    rw [sponsorArgs]
    by_cases hc : fs.sponsorVar
    · rw [if_pos hc]
      simp
    · rw [if_neg hc]
      simp
  have hrate' : "-f" ∉ rateArgs fs := by
    rw [rateArgs]
    by_cases hc : pyStrip fs.rateEntry ≠ ""
    · rw [if_pos hc]
      simp [Ne.symm hrate]
    · rw [if_neg hc]
      simp
  have hproxy' : "-f" ∉ proxyArgs fs := by
    rw [proxyArgs]
    by_cases hc : pyStrip fs.proxyEntry ≠ ""
    · rw [if_pos hc]
      simp [Ne.symm hproxy]
    · rw [if_neg hc]
      simp
  have htpl' : "-f" ∉ tplArgs fs := by
    rw [tplArgs]
    by_cases hc : pyStrip fs.renameEntry ≠ ""
    · rw [if_pos hc]
      simp [Ne.symm htpl]
    · rw [if_neg hc]
      simp
  have hx1 : ¬("-f" = exe) := fun h => hexe h.symm
  have hx2 : ¬("-f" = url) := fun h => hurl h.symm
  have hx3 : ¬("-f" = folder) := fun h => hfolder h.symm
  constructor
  · refine ⟨?_, ?_, ?_⟩ <;> simp [buildArgs, formatArgs, haudio]
  · simp [buildArgs, formatArgs, haudio, hx1, hx2, hx3, hsubs, hsponsor,
      hrate', hproxy', htpl']

/-- C3 witness: the amended theorem applied to a concrete audio-only form
state with subtitles, SponsorBlock and a rate limit enabled. -/
theorem audio_only_flags_amended_witness :
    ("-x" ∈ buildArgs "yt-dlp.exe" "d" fsAudio "http://a" ∧
      "--audio-format" ∈ buildArgs "yt-dlp.exe" "d" fsAudio "http://a" ∧
      "mp3" ∈ buildArgs "yt-dlp.exe" "d" fsAudio "http://a") ∧
    "-f" ∉ buildArgs "yt-dlp.exe" "d" fsAudio "http://a" :=
  audio_only_flags_amended "yt-dlp.exe" "d" fsAudio "http://a" (by decide)
    (by decide) (by decide) (by decide) (by decide) (by decide) (by decide)

end YtdlpMadeEasy
